import Mathlib

/-!
Verification development for the CareNow triage service
(`src/ai_service.py`, `src/main.py`, `src/models.py`, `src/llm/rag_system.py`).

Python strings are modelled as Lean `String` (sequences of code points),
Python lists as Lean `List`, dictionaries with a known field set as
structures with `Option` fields (a `none` field models an absent key),
and fallible external calls (the Gemini oracle, the Chroma vector store)
as explicit `Option`/`Except` arguments threaded through the pipeline.
-/

namespace CareNow

/-- Python `sep.join(parts)`. -/
def pyJoin (sep : String) : List String → String
  | [] => ""
  | [x] => x
  | x :: y :: t => x ++ sep ++ pyJoin sep (y :: t)

/-- Python `s[:n]`: the first `n` code points of `s`. -/
def pyTake (s : String) (n : Nat) : String :=
  String.mk (s.data.take n)

/-- Maps each character through `f` and concatenates the results. -/
def expand_chars (f : Char → List Char) : List Char → List Char
  | [] => []
  | c :: t => f c ++ expand_chars f t

/-- Python `s.replace(c, r)` for a single-character pattern `c`. -/
def py_replace_char (s : String) (c : Char) (r : String) : String :=
  String.mk (expand_chars (fun ch => if ch = c then r.data else [ch]) s.data)

/-- The `urgency` sub-dictionary of a routing hint
(`route_patient` output: `level`, `label`, `reason`, `action` keys). -/
structure Urgency where
  level : String
  label : String
  reason : String
  action : String

/-- A routing hint as consumed by `analyze_symptom`
(`routing["primary_department"]`, `routing["urgency"]`). -/
structure Routing where
  primary_department : String
  urgency : Urgency

/-- The dictionary parsed from the generative oracle output by
`JsonOutputParser`.  The parser performs no schema validation, so every
field may be absent (`none`); `analyze_symptom` and `format_response`
read each field with `dict.get(key, default)`. -/
structure Analysis where
  urgency_level : Option String
  urgency_reason : Option String
  departments : Option (List String)
  immediate_actions : Option (List String)
  precautions : Option (List String)
  friendly_message : Option String

/-- The mapping returned by `analyze_symptom`: it has exactly the keys
`response`, `urgency_level`, `departments` on every exit path. -/
structure TriageResult where
  response : String
  urgency_level : String
  departments : List String

/-- `map_urgency_level` (src/ai_service.py:204-211): dictionary lookup
with default `"자가관찰"`. -/
def map_urgency_level (level : String) : String :=
  if level = "emergency" then "응급실"
  else if level = "urgent" then "외래진료"
  else if level = "observation" then "자가관찰"
  else "자가관찰"

/-- The `urgency_emoji` lookup of `format_response`
(src/ai_service.py:217-223), default `"💡"`. -/
def urgency_emoji (level : String) : String :=
  if level = "응급실" then "🔴"
  else if level = "외래진료" then "🟡"
  else if level = "자가관찰" then "🟢"
  else "💡"

/-- The fixed disclaimer line appended last by both renderers. -/
def disclaimer_line : String :=
  "💡 이 정보는 응급 가이드이며, 의학적 진단을 대체하지 않습니다."

/-- The `parts` list built by `format_response`
(src/ai_service.py:214-260), in the exact order the Python code appends:
friendly message, urgency, departments (if non-empty), immediate actions
(if non-empty), precautions (if non-empty), disclaimer. -/
def format_response_parts (a : Analysis) : List String :=
  let emoji := urgency_emoji (a.urgency_level.getD "자가관찰")
  let depts := a.departments.getD []
  let actions := a.immediate_actions.getD []
  let precs := a.precautions.getD []
  [a.friendly_message.getD "증상 분석을 완료했습니다.", "",
   emoji ++ " 응급도: " ++ a.urgency_level.getD "자가관찰",
   "└─ " ++ a.urgency_reason.getD "", ""]
  ++ (if depts.isEmpty then [] else
      ["📋 추천 진료과", "└─ " ++ pyJoin ", " depts, ""])
  ++ (if actions.isEmpty then [] else
      "✅ 즉시 취해야 할 조치" :: actions.map (fun s => "  • " ++ s) ++ [""])
  ++ (if precs.isEmpty then [] else
      "⚠️ 주의사항" :: precs.map (fun s => "  • " ++ s) ++ [""])
  ++ [disclaimer_line]

/-- `format_response` (src/ai_service.py:214-262): `"\n".join(parts)`. -/
def format_response (a : Analysis) : String :=
  pyJoin "\n" (format_response_parts a)

/-- The emoji lookup of `format_fallback_response`
(src/ai_service.py:273-279), keyed on the raw routing level. -/
def fallback_emoji (level : String) : String :=
  if level = "emergency" then "🔴"
  else if level = "urgent" then "🟡"
  else if level = "observation" then "🟢"
  else "💡"

/-- The `parts` list built by `format_fallback_response`
(src/ai_service.py:265-302).  The extra knowledge-base action line is
appended exactly when `len(medical_context) > 100`. -/
def format_fallback_parts (r : Routing) (medical_context : String) : List String :=
  ["증상 분석을 완료했습니다.", "",
   fallback_emoji r.urgency.level ++ " 응급도: " ++ r.urgency.label,
   "└─ " ++ r.urgency.reason, "",
   "📋 추천 진료과", "└─ " ++ r.primary_department, "",
   "✅ 즉시 취해야 할 조치",
   "  • " ++ r.urgency.action]
  ++ (if 100 < medical_context.length then
      ["  • 의료 지식베이스를 참고하여 적절한 응급처치를 하세요"] else [])
  ++ ["  • 증상을 관찰하고 악화되면 병원 방문", "",
      "⚠️ 주의사항",
      "  • 증상 변화를 주의 깊게 관찰하세요",
      "  • 악화되거나 48시간 이상 지속되면 병원 방문", "",
      disclaimer_line]

/-- `format_fallback_response` (src/ai_service.py:265-304). -/
def format_fallback_response (r : Routing) (medical_context : String) : String :=
  pyJoin "\n" (format_fallback_parts r medical_context)

/-- `analyze_symptom` (src/ai_service.py:44-201), with the external
stages as explicit inputs: `r` is the `route_patient` hint, `ctx` the
`get_relevant_knowledge` text, and `oracle` the outcome of the
LangChain chain (`none` models any exception — network error, template
error, unparseable output).  A parsed dictionary lacking the
`urgency_level` key raises `KeyError` at the success-path log line
(src/ai_service.py:180) inside the `try`, hence also falls back. -/
def analyze_symptom (r : Routing) (ctx : String) (oracle : Option Analysis) :
    TriageResult :=
  match oracle with
  | some a =>
    match a.urgency_level with
    | some _ =>
      { response := format_response a
        urgency_level := a.urgency_level.getD "자가관찰"
        departments := a.departments.getD [] }
    | none =>
      { response := format_fallback_response r ctx
        urgency_level := map_urgency_level r.urgency.level
        departments := [r.primary_department] }
  | none =>
    { response := format_fallback_response r ctx
      urgency_level := map_urgency_level r.urgency.level
      departments := [r.primary_department] }

/-- `escape_braces` models the brace escaping applied to the schema
description (src/ai_service.py:70-71):
`format_instructions.replace("{", "{{").replace("}", "}}")`. -/
def escape_braces (s : String) : String :=
  py_replace_char (py_replace_char s '\x7b' "\x7b\x7b") '\x7d' "\x7d\x7d"

/-- The fixed text of `rag_section` before the chunk slice
(src/ai_service.py:76-78). -/
def rag_pre : String := "\n<의료_지식_검색_결과>\n"

/-- The fixed text of `rag_section` after the chunk slice
(src/ai_service.py:79-83). -/
def rag_post : String :=
  "\n</의료_지식_검색_결과>\n\n위 의료 지식의 내용을 적극적으로 활용하여,\n" ++
  "응급처치 방법과 주의사항을 단계별로 상세히 설명하세요.\n"

/-- The `rag_section` string of `analyze_symptom`
(src/ai_service.py:74-83): empty unless `len(medical_context) > 100`;
otherwise it inserts `medical_context[:1500]` verbatim between the
fixed wrapper texts. -/
def rag_section_of (ctx : String) : String :=
  if 100 < ctx.length then rag_pre ++ pyTake ctx 1500 ++ rag_post else ""

/-- Follows the wording of the spec (§4.3) rather than the code, for the
refinement comparison of claim C4: the injected chunk text has its
template-delimiter braces neutralized (escaped) before insertion. -/
def rag_section_spec (ctx : String) : String :=
  if 100 < ctx.length then
    rag_pre ++ escape_braces (pyTake ctx 1500) ++ rag_post
  else ""

/-- The head of the system prompt f-string (src/ai_service.py:85-91),
up to and including the blank line before `rag_section`. -/
def prompt_head (r : Routing) : String :=
  "당신은 일상 응급 상황에 대응하는 1차 의료 상담 전문가 \x27CareNow\x27입니다.\n" ++
  "\n# 자동 분석 참고 정보\n- AI 추천 진료과: " ++ r.primary_department ++
  "\n- AI 응급도 평가: " ++ r.urgency.label ++
  "\n- AI 평가 근거: " ++ r.urgency.reason ++ "\n\n"

/-- The fixed body of the system prompt between `rag_section` and the
escaped `format_instructions` (src/ai_service.py:92-165). -/
def prompt_mid : String :=
  "\n\n# 역할과 대상\n" ++
  "- 사용자는 영유아, 소아, 성인 모두 포함될 수 있습니다.\n" ++
  "- 환자 나이가 주어지면 나이에 맞는 표현과 진료과를 선택하세요.\n" ++
  "- 환자 나이가 없으면 \"일반 성인 기준\"으로 판단하되,\n" ++
  "  명백히 아이 관련 표현(예: 아이, 아기, 우리 애)이 있으면 소아 기준으로 판단하세요.\n" ++
  "\n# 응급도 분류 기준 (균형잡힌 접근)\n\n" ++
  "🔴 응급실 (즉시 방문) - 약 10%\n" ++
  "- 호흡곤란, 의식저하, 경련, 심한 출혈\n" ++
  "- 40도 이상 고열 + 의식 변화\n" ++
  "- 심한 가슴통증(쥐어짜는 느낌), 심한 알레르기 반응\n" ++
  "- 머리 외상 후 의식 소실, 반복적인 구토\n\n" ++
  "🟡 외래진료 (24~48시간 내 방문) - 약 45%\n" ++
  "- 고열 지속 (39도 이상, 2~3일 이상)\n" ++
  "- 참기 힘든 통증 (너무 아프다, 못 참겠다 등)\n" ++
  "- 하루 종일 계속되는 구토/설사로 탈수가 걱정되는 경우\n" ++
  "- 골절이 의심되거나, 심한 타박상·관절 부종 등\n" ++
  "- 증상이 점점 심해지거나, 보호자가 보기에도 걱정되는 경우\n\n" ++
  "🟢 자가관찰 (집에서 경과 관찰) - 약 45%\n" ++
  "- 37~38도 정도의 가벼운 발열\n" ++
  "- 참을 만한 정도의 두통·복통\n" ++
  "- 가벼운 콧물·기침·코막힘\n" ++
  "- 일시적인 소화 불량, 피로감, 몸살 기운\n" ++
  "- \"머리가 아파요\", \"배가 살짝 아파요\", \"미열이 있어요\"와 같은 일상적인 증상\n" ++
  "\n# 진료과 선택 가이드\n" ++
  "- 전신 증상(발열, 몸살, 기침 등): 내과 / 가정의학과 / (소아라면 소아청소년과)\n" ++
  "- 피부 증상: 피부과 / 알레르기내과\n" ++
  "- 외상: 정형외과 / 응급의학과\n" ++
  "- 머리·신경 증상: 신경과 / 신경외과\n" ++
  "- 눈: 안과\n" ++
  "- 귀·코·목: 이비인후과\n\n" ++
  "departments 필드에는 위 가이드에 따라 최소 1개, 최대 3개까지 넣되,\n" ++
  "첫 번째 항목은 자동 라우팅 결과(primary_department)를 우선 반영하세요.\n" ++
  "\n# 응급처치(immediate_actions) 작성 가이드 - 매우 중요!\n" ++
  "- **집에서 바로 할 수 있는 구체적인 행동**을 단계처럼 설명하세요.\n" ++
  "- 각 항목은 **완결된 문장**으로 쓰고, **최소 20자 이상**이 되도록 자세히 적으세요.\n" ++
  "- 가능하면 \"무엇을, 어떻게, 얼마나, 왜\"를 포함하세요.\n" ++
  "  좋은 예시:\n" ++
  "  - \"조용하고 어두운 곳에서 30분 이상 휴식을 취하면서, 스마트폰 사용을 잠시 중단하도록 안내합니다.\"\n" ++
  "  - \"물을 한 번에 많이 마시기보다는, 10~15분 간격으로 한 컵씩 천천히 마시게 하여 탈수를 예방합니다.\"\n" ++
  "  - \"열이 38도 이상이면서 힘들어한다면, 체중에 맞는 해열제를 복용하고 30분~1시간 뒤 다시 체온을 확인합니다.\"\n" ++
  "  - \"벌에 쏘인 부위를 깨끗한 물로 씻은 후, 깨끗한 수건으로 감싼 얼음주머니를 10~15분간 대주면 붓기와 통증이 완화됩니다.\"\n" ++
  "- 나쁜 예시:\n" ++
  "  - \"병원에 가세요\" ← 이건 precautions에\n" ++
  "  - \"관찰하세요\" ← 너무 추상적\n" ++
  "  - \"휴식\" ← 구체적이지 않음\n" ++
  "- 단순히 \"병원에 가세요\" 같은 문장은 immediate_actions에 넣지 말고,\n" ++
  "  병원 방문 권고는 precautions 또는 friendly_message에 포함하세요.\n" ++
  "- 응급도가 \x27자가관찰\x27이어도, 집에서 할 수 있는 구체적인 조치를 **최소 3개 이상** 작성해야 합니다.\n" ++
  "\n# 주의사항(precautions) 작성 가이드\n" ++
  "- 각 항목은 **한 문장 이상, 20자 이상**의 문장 형태여야 합니다.\n" ++
  "- \"이런 경우에는 바로 병원에 가야 한다\"는 기준을 분명하게 써 주세요.\n" ++
  "  좋은 예시:\n" ++
  "  - \"통증이 점점 심해지거나, 2~3일 이상 좋아지지 않으면 가까운 병·의원 진료를 꼭 권장합니다.\"\n" ++
  "  - \"열이 39도 이상으로 다시 오르거나, 아이가 축 늘어지고 잘 반응하지 않으면 응급실 방문을 고려해야 합니다.\"\n" ++
  "  - \"쏘인 곳이 크게 부어오르면서 호흡곤란, 심한 두드러기, 어지러움 등의 알레르기 반응이 나타나면 즉시 119에 신고하거나 가장 가까운 응급실로 가세요.\"\n" ++
  "\n# 공감 메시지(friendly_message)\n" ++
  "- 2~3문장으로, 사용자가 불안하지 않도록 따뜻하고 친절하게 작성하세요.\n" ++
  "- 현재 증상이 얼마나 흔한지, 어떤 점을 중심으로 지켜보면 좋은지 간단히 설명해 주세요.\n" ++
  "\n# 전체 출력 형식\n" ++
  "- 반드시 JSON 형식으로만 출력해야 합니다.\n" ++
  "- 아래 형식 지침을 엄격히 따르세요.\n\n"

/-- The assembled `system_prompt` (src/ai_service.py:85-167):
head (with routing interpolations), `rag_section`, fixed body, the
escaped schema description, and a trailing newline. -/
def system_prompt_of (r : Routing) (ctx : String) (format_instructions : String) :
    String :=
  prompt_head r ++ rag_section_of ctx ++ prompt_mid ++
    escape_braces format_instructions ++ "\n"

/-- The inverse transformation applied by the downstream templating
layer: a doubled template delimiter denotes one literal brace.  Used to
state that escaping preserves the injected text. -/
def template_unescape_chars : List Char → List Char
  | [] => []
  | [c] => [c]
  | a :: b :: t =>
    if a = '\x7b' ∧ b = '\x7b' then '\x7b' :: template_unescape_chars t
    else if a = '\x7d' ∧ b = '\x7d' then '\x7d' :: template_unescape_chars t
    else a :: template_unescape_chars (b :: t)

/-- String version of `template_unescape_chars`. -/
def template_unescape (s : String) : String :=
  String.mk (template_unescape_chars s.data)

/-- A document chunk held by the vector store
(`langchain_core.documents.Document`): page content plus the metadata
keys written by `extract_text_from_pdf` (src/llm/rag_system.py:69-76);
`none` models an absent metadata key. -/
structure RagDoc where
  page_content : String
  msource : Option String
  mfile : Option String
  mpage : Option Nat

/-- One element of the list returned by `RAGSystem.search`
(src/llm/rag_system.py:172-180).  `page` keeps the metadata value when
present (`none` models the `""` default of `metadata.get`). -/
structure SearchResult where
  content : String
  source : String
  file : String
  page : Option Nat

/-- The external Chroma vector store, abstracted to its
`similarity_search` capability; `Except.error` models a raised
exception. -/
structure Vectorstore where
  sim_search : String → Nat → Except String (List RagDoc)

/-- `RAGSystem` (src/llm/rag_system.py:49-54): `vectorstore` is `None`
until a store is loaded or created. -/
structure RAGSystem where
  vectorstore : Option Vectorstore

/-- `RAGSystem.search` (src/llm/rag_system.py:163-184): returns `[]`
when no vector store is present, maps the hits otherwise, and returns
`[]` when `similarity_search` raises. -/
def RAGSystem.search (self : RAGSystem) (query : String) (k : Nat) :
    List SearchResult :=
  match self.vectorstore with
  | none => []
  | some v =>
    match v.sim_search query k with
    | Except.ok docs =>
      docs.map (fun d =>
        { content := d.page_content
          source := d.msource.getD ""
          file := d.mfile.getD ""
          page := d.mpage })
    | Except.error _ => []

/-- `initialize_rag_system` (src/llm/rag_system.py:190-217) on a fresh
instance.  `loaded` is the outcome of `load_vectorstore` (`none` when
the persisted store is missing or fails to load), `documents` the
outcome of `load_documents` (empty for an empty or missing corpus),
and `create` the external `Chroma.from_documents` capability.  When
loading is skipped or fails and no documents exist, the vector store
stays `None` — no exception is raised. -/
def initialize_rag_system (force_recreate : Bool) (loaded : Option Vectorstore)
    (documents : List RagDoc) (create : List RagDoc → Vectorstore) : RAGSystem :=
  match force_recreate, loaded with
  | false, some v => { vectorstore := some v }
  | _, _ =>
    if documents.isEmpty then { vectorstore := none }
    else { vectorstore := some (create documents) }

/-- `ErrorDetails` (src/models.py:23-29). -/
structure ErrorDetails where
  code : Option String
  field : Option String
  rejected_value : Option String
  reason : Option String

/-- `ApiResponse` (src/models.py:31-45).  The wall-clock `timestamp`
field is omitted; `data` is specialised to the payload shape the chat
handler produces (a list of generated responses). -/
structure ApiResponse where
  success : Bool
  message : Option String
  data : Option (List String)
  error : Option ErrorDetails

/-- Python truthiness of an `Optional[str]`: `None` and `""` are falsy. -/
def optTruthy (o : Option String) : Bool :=
  match o with
  | some s => s != ""
  | none => false

/-- Python `reason or message` for `reason: Optional[str]`. -/
def pyOrStr (a : Option String) (b : String) : String :=
  match a with
  | some s => if s = "" then b else s
  | none => b

/-- `create_success_response` (src/models.py:48-53). -/
def create_success_response (data : Option (List String))
    (message : Option String) : ApiResponse :=
  { success := true, message := message, data := data, error := none }

/-- `create_error_response` (src/models.py:55-71): builds `ErrorDetails`
only when some argument is truthy, with `reason = reason or message`. -/
def create_error_response (message : String)
    (code field rejected_value reason : Option String) : ApiResponse :=
  if optTruthy code || optTruthy field || optTruthy rejected_value
      || optTruthy reason then
    { success := false, message := some message, data := none
      error := some { code := code, field := field
                      rejected_value := rejected_value
                      reason := some (pyOrStr reason message) } }
  else
    { success := false, message := some message, data := none, error := none }

/-- The `/api/chat` handler (src/main.py:54-101).  Its body — intent
classification, retrieval, and response generation (`classify_symptom`
and `generate_response` are imported but absent from src/) — runs
entirely inside one `try` and is abstracted as `run`; `Except.error e`
models any exception raised there (`str(e)` is the message).  The
handler applies `run` to the message unconditionally: there is no input
validation step. -/
def chat (message : String) (run : String → Except String String) : ApiResponse :=
  match run message with
  | Except.ok resp => create_success_response (some [resp]) (some "응답 생성 성공")
  | Except.error e =>
    create_error_response "AI 응답 생성 실패" (some "CHAT_ERROR") none none (some e)

/-- Per-character effect of the two brace-escaping passes of
`escape_braces`. -/
def escCharL (c : Char) : List Char :=
  if c = '\x7b' then ['\x7b', '\x7b']
  else if c = '\x7d' then ['\x7d', '\x7d']
  else [c]

/-- Recognizes a rendered bullet item: a line that starts with the
four-character bullet marker used by both renderers. -/
def bullet_line (s : String) : Bool :=
  pyTake s 4 == "  • "

/-- The fixed fallback parts before the immediate-action bullets
(src/ai_service.py:281-290). -/
def fallback_head (r : Routing) : List String :=
  ["증상 분석을 완료했습니다.", "",
   fallback_emoji r.urgency.level ++ " 응급도: " ++ r.urgency.label,
   "└─ " ++ r.urgency.reason, "",
   "📋 추천 진료과", "└─ " ++ r.primary_department, "",
   "✅ 즉시 취해야 할 조치"]

/-- The immediate-action bullet lines of the fallback rendering
(src/ai_service.py:291-296): the canned action of the hint, the
knowledge-base pointer when more than 100 characters of context were
retrieved, and the observe-and-escalate action. -/
def fallback_action_bullets (r : Routing) (ctx : String) : List String :=
  ["  • " ++ r.urgency.action]
  ++ (if 100 < ctx.length then
      ["  • 의료 지식베이스를 참고하여 적절한 응급처치를 하세요"] else [])
  ++ ["  • 증상을 관찰하고 악화되면 병원 방문"]

/-- The fixed fallback parts after the action bullets
(src/ai_service.py:297-302): the two precaution bullets and the
disclaimer. -/
def fallback_tail : List String :=
  ["", "⚠️ 주의사항",
   "  • 증상 변화를 주의 깊게 관찰하세요",
   "  • 악화되거나 48시간 이상 지속되면 병원 방문", "",
   disclaimer_line]

/-- Spec section of the rendered output: the friendly message block. -/
def sec_message (a : Analysis) : List String :=
  [a.friendly_message.getD "증상 분석을 완료했습니다.", ""]

/-- Spec section of the rendered output: the urgency line (tier plus
reason). -/
def sec_urgency (a : Analysis) : List String :=
  [urgency_emoji (a.urgency_level.getD "자가관찰") ++ " 응급도: "
     ++ a.urgency_level.getD "자가관찰",
   "└─ " ++ a.urgency_reason.getD "", ""]

/-- Spec section of the rendered output: recommended departments
(joined list). -/
def sec_departments (a : Analysis) : List String :=
  if (a.departments.getD []).isEmpty then []
  else ["📋 추천 진료과", "└─ " ++ pyJoin ", " (a.departments.getD []), ""]

/-- Spec section of the rendered output: immediate actions (bulleted). -/
def sec_actions (a : Analysis) : List String :=
  if (a.immediate_actions.getD []).isEmpty then []
  else "✅ 즉시 취해야 할 조치"
    :: (a.immediate_actions.getD []).map (fun s => "  • " ++ s) ++ [""]

/-- Spec section of the rendered output: precautions (bulleted). -/
def sec_precautions (a : Analysis) : List String :=
  if (a.precautions.getD []).isEmpty then []
  else "⚠️ 주의사항"
    :: (a.precautions.getD []).map (fun s => "  • " ++ s) ++ [""]

/-! ### Concrete example data used by counterexamples and witnesses -/

/-- A plausible routing hint: the lowest tier with a generic department,
as the router produces for an unmatched everyday symptom. -/
def rEx : Routing :=
  { primary_department := "내과"
    urgency := { level := "observation", label := "자가관찰"
                 reason := "경미한 증상으로 판단됩니다", action := "휴식을 취하세요" } }

/-- A retrieved-knowledge text longer than the 100-character gate. -/
def ctxLong : String := String.mk (List.replicate 101 'k')

/-- A retrieved-knowledge text longer than 100 characters whose first
character is a literal template delimiter. -/
def ctxBrace : String := String.mk ('\x7b' :: List.replicate 100 'a')

/-- A syntactically valid oracle dictionary that violates the schema
bounds: an urgency level outside the three tiers and an empty
department list.  `JsonOutputParser` accepts it unchanged. -/
def badA : Analysis :=
  { urgency_level := some "중간", urgency_reason := none, departments := some []
    immediate_actions := none, precautions := none, friendly_message := none }

/-! ### Helper lemmas -/

/-- The code points of an appended string are the appended code points. -/
theorem strdata_append (a b : String) : (a ++ b).data = a.data ++ b.data := by
  cases a; cases b; rfl

/-- The length of an appended string adds the lengths. -/
theorem strlength_append (a b : String) : (a ++ b).length = a.length + b.length := by
  cases a; cases b; simp [String.length, String.append]

/-- A joined list that ends in `x` produces a string that ends in `x`. -/
theorem pyJoin_ends (sep x : String) :
    ∀ l : List String, ∃ t : List Char,
      (pyJoin sep (l ++ [x])).data = t ++ x.data := by
  intro l
  induction l with
  | nil => exact ⟨[], by simp [pyJoin]⟩
  | cons a l ih =>
    cases l with
    | nil => exact ⟨a.data ++ sep.data, by simp [pyJoin, strdata_append]⟩
    | cons b l2 =>
      obtain ⟨t, ht⟩ := ih
      refine ⟨a.data ++ sep.data ++ t, ?_⟩
      show (a ++ sep ++ pyJoin sep ((b :: l2) ++ [x])).data = _
      simp only [strdata_append, List.cons_append, List.append_assoc] at ht ⊢
      rw [ht]

/-- `expand_chars` distributes over list append. -/
theorem expand_chars_append (f : Char → List Char) (l1 l2 : List Char) :
    expand_chars f (l1 ++ l2) = expand_chars f l1 ++ expand_chars f l2 := by
  induction l1 with
  | nil => rfl
  | cons c t ih => simp [expand_chars, ih]

/-- The two sequential `replace` passes of `escape_braces` amount to the
single per-character expansion `escCharL`. -/
theorem escape_braces_eq (s : String) :
    (escape_braces s).data = expand_chars escCharL s.data := by
  show (py_replace_char (py_replace_char s '\x7b' "\x7b\x7b") '\x7d' "\x7d\x7d").data
      = expand_chars escCharL s.data
  simp only [py_replace_char]
  induction s.data with
  | nil => rfl
  | cons c t ih =>
    simp only [expand_chars, expand_chars_append, ih, escCharL]
    by_cases h1 : c = '\x7b'
    · subst h1; simp [expand_chars]
    · by_cases h2 : c = '\x7d'
      · subst h2; simp [expand_chars]
      · simp [h1, h2, expand_chars]

/-- `escCharL` never produces the empty list. -/
theorem escCharL_ne_nil (c : Char) : escCharL c ≠ [] := by
  unfold escCharL
  by_cases h1 : c = '\x7b' <;> by_cases h2 : c = '\x7d' <;> simp [h1, h2]

/-- Undoing doubled template delimiters recovers the original text. -/
theorem unescape_expand (l : List Char) :
    template_unescape_chars (expand_chars escCharL l) = l := by
  induction l with
  | nil => rfl
  | cons c t ih =>
    show template_unescape_chars (escCharL c ++ expand_chars escCharL t) = c :: t
    by_cases h1 : c = '\x7b'
    · subst h1
      simp [escCharL, template_unescape_chars, ih]
    · by_cases h2 : c = '\x7d'
      · subst h2
        simp [escCharL, template_unescape_chars, ih]
      · cases ht : expand_chars escCharL t with
        | nil =>
          cases t with
          | nil => simp [escCharL, h1, h2, template_unescape_chars]
          | cons d t2 => exact absurd (List.append_eq_nil.mp ht).1 (escCharL_ne_nil d)
        | cons b t3 =>
          have hexp : escCharL c ++ (b :: t3) = c :: b :: t3 := by
            simp [escCharL, h1, h2]
          rw [hexp]
          have hstep : template_unescape_chars (c :: b :: t3)
              = c :: template_unescape_chars (b :: t3) := by
            simp [template_unescape_chars, h1, h2]
          rw [hstep, ← ht, ih]

/-- A line built by prefixing the bullet marker is a bullet line. -/
theorem bullet_line_marker (x : String) : bullet_line ("  • " ++ x) = true := by
  cases x; rfl

/-- The urgency line of the fallback rendering is not a bullet line,
whatever emoji the routing level selects. -/
theorem bullet_line_emoji (lvl y : String) :
    bullet_line (fallback_emoji lvl ++ y) = false := by
  unfold fallback_emoji
  split
  · cases y; rfl
  · split
    · cases y; rfl
    · split
      · cases y; rfl
      · cases y; rfl

/-- `map_urgency_level` only ever returns one of the three tier labels. -/
theorem map_urgency_mem (level : String) :
    map_urgency_level level = "응급실" ∨ map_urgency_level level = "외래진료"
      ∨ map_urgency_level level = "자가관찰" := by
  unfold map_urgency_level
  split
  · exact Or.inl rfl
  · split
    · exact Or.inr (Or.inl rfl)
    · split
      · exact Or.inr (Or.inr rfl)
      · exact Or.inr (Or.inr rfl)

/-- The fallback parts decompose into head, action bullets, tail. -/
theorem fallback_parts_decomp (r : Routing) (ctx : String) :
    format_fallback_parts r ctx
      = fallback_head r ++ fallback_action_bullets r ctx ++ fallback_tail := by
  by_cases h : 100 < ctx.length <;>
    simp [format_fallback_parts, fallback_head, fallback_action_bullets,
      fallback_tail, h]

/-- Splitting off the front of a five-segment concatenation ending in a
singleton. -/
theorem exists_front (l1 l2 l3 l4 : List String) (x : String) :
    ∃ L, l1 ++ l2 ++ l3 ++ l4 ++ [x] = L ++ [x] :=
  ⟨l1 ++ l2 ++ l3 ++ l4, by simp [List.append_assoc]⟩

/-- The parts list of `format_response` ends in the disclaimer. -/
theorem format_response_parts_ends (a : Analysis) :
    ∃ L : List String, format_response_parts a = L ++ [disclaimer_line] := by
  simp only [format_response_parts]
  exact exists_front _ _ _ _ _

/-- The parts list of `format_fallback_response` ends in the disclaimer. -/
theorem fallback_parts_ends (r : Routing) (ctx : String) :
    ∃ L : List String, format_fallback_parts r ctx = L ++ [disclaimer_line] := by
  refine ⟨fallback_head r ++ fallback_action_bullets r ctx
      ++ ["", "⚠️ 주의사항", "  • 증상 변화를 주의 깊게 관찰하세요",
          "  • 악화되거나 48시간 이상 지속되면 병원 방문", ""], ?_⟩
  rw [fallback_parts_decomp]
  simp [fallback_tail, List.append_assoc]

/-- A string that ends in the disclaimer line is not empty. -/
theorem ends_ne_empty (s : String) (t : List Char)
    (h : s.data = t ++ disclaimer_line.data) : s ≠ "" := by
  intro he
  subst he
  have h2 : t ++ disclaimer_line.data = [] := h.symm
  exact absurd (List.append_eq_nil.mp h2).2 (by decide)

/-! ### Claims -/

/-- Claim C9 (confirmed): `map_urgency_level` is total — it returns one
of the three tier labels for every input string — and any string other
than the keys `emergency`, `urgent`, `observation` maps to the lowest
tier `자가관찰`. -/
theorem c9_map_urgency_total (level : String) :
    (map_urgency_level level = "응급실" ∨ map_urgency_level level = "외래진료"
      ∨ map_urgency_level level = "자가관찰")
    ∧ (level ≠ "emergency" → level ≠ "urgent" → level ≠ "observation" →
        map_urgency_level level = "자가관찰") := by
  refine ⟨map_urgency_mem level, ?_⟩
  intro h1 h2 h3
  unfold map_urgency_level
  rw [if_neg h1, if_neg h2, if_neg h3]

/-- Witness for C9 at the input `"fever"`, which is none of the keys. -/
theorem c9_map_urgency_total_witness : map_urgency_level "fever" = "자가관찰" :=
  (c9_map_urgency_total "fever").2 (by decide) (by decide) (by decide)

/-- Claim C3 (confirmed): with an empty or missing corpus (no persisted
store loads, `load_documents` returns `[]`), initialization yields a
system with no vector store — and raises nothing, being a total
function — and `search` on such a system returns `[]` for every query
and every `k`. -/
theorem c3_empty_corpus_degrades (fr : Bool)
    (create : List RagDoc → Vectorstore) (q : String) (k : Nat) :
    (initialize_rag_system fr none [] create).vectorstore = none
    ∧ RAGSystem.search (initialize_rag_system fr none [] create) q k = [] := by
  cases fr <;> exact ⟨rfl, rfl⟩

/-- Claim C7 (confirmed): the chunk text contributed to the payload is
`medical_context[:1500]`, whose length never exceeds 1500 characters;
below the 100-character gate no chunk text is contributed at all. -/
theorem c7_truncation_budget (ctx : String) :
    (pyTake ctx 1500).length ≤ 1500
    ∧ (100 < ctx.length →
        rag_section_of ctx = rag_pre ++ pyTake ctx 1500 ++ rag_post)
    ∧ (¬ 100 < ctx.length → rag_section_of ctx = "") := by
  refine ⟨?_, ?_, ?_⟩
  · show (ctx.data.take 1500).length ≤ 1500
    rw [List.length_take]
    exact min_le_left _ _
  · intro h; simp [rag_section_of, h]
  · intro h; simp [rag_section_of, h]

/-- Witness for C7 at a 101-character context. -/
theorem c7_truncation_budget_witness :
    rag_section_of ctxLong = rag_pre ++ pyTake ctxLong 1500 ++ rag_post :=
  (c7_truncation_budget ctxLong).2.1 (by decide)

/-- Claim C6 (confirmed): on the fallback path the result has
`departments = [primary_department]`, the urgency level corresponding
to the hint tier under the enum mapping, and the rendered parts copy
the hint label and reason into the urgency lines (indices 2 and 3). -/
theorem c6_fallback_fields (r : Routing) (ctx : String) :
    (analyze_symptom r ctx none).departments = [r.primary_department]
    ∧ (analyze_symptom r ctx none).response = format_fallback_response r ctx
    ∧ (r.urgency.level = "emergency" →
        (analyze_symptom r ctx none).urgency_level = "응급실")
    ∧ (r.urgency.level = "urgent" →
        (analyze_symptom r ctx none).urgency_level = "외래진료")
    ∧ (r.urgency.level = "observation" →
        (analyze_symptom r ctx none).urgency_level = "자가관찰")
    ∧ (format_fallback_parts r ctx)[2]?
        = some (fallback_emoji r.urgency.level ++ " 응급도: " ++ r.urgency.label)
    ∧ (format_fallback_parts r ctx)[3]? = some ("└─ " ++ r.urgency.reason) := by
  refine ⟨rfl, rfl, ?_, ?_, ?_, ?_, ?_⟩
  · intro h
    show map_urgency_level r.urgency.level = "응급실"
    rw [h]
    decide
  · intro h
    show map_urgency_level r.urgency.level = "외래진료"
    rw [h]
    decide
  · intro h
    show map_urgency_level r.urgency.level = "자가관찰"
    rw [h]
    decide
  · rfl
  · rfl

/-- Witness for C6 at the example observation-tier hint. -/
theorem c6_fallback_fields_witness :
    (analyze_symptom rEx "" none).urgency_level = "자가관찰" :=
  (c6_fallback_fields rEx "").2.2.2.2.1 rfl


/-- Claim C2 (corrected) — counterexample: with the oracle failing and
the routing hint held fixed, the rendered failure-path output differs
between an empty retrieved context and a 101-character one, so the
failure-path output depends on the retrieved knowledge and cannot equal
a function of the routing hint alone. -/
theorem c2_context_dependence_counterexample :
    (analyze_symptom rEx "" none).response
      ≠ (analyze_symptom rEx ctxLong none).response := by decide

/-- Claim C2 as amended: on oracle failure the pipeline returns exactly
the fallback rendering computed from the routing hint and the retrieved
context, and the failure-path output depends on the context only
through whether its length exceeds 100 characters. -/
theorem c2_degradation_amended (r : Routing) (ctx : String) :
    analyze_symptom r ctx none =
      { response := format_fallback_response r ctx
        urgency_level := map_urgency_level r.urgency.level
        departments := [r.primary_department] }
    ∧ ∀ ctx', (100 < ctx.length ↔ 100 < ctx'.length) →
        analyze_symptom r ctx none = analyze_symptom r ctx' none := by
  refine ⟨rfl, ?_⟩
  intro ctx' hiff
  by_cases h : 100 < ctx.length
  · have h' := hiff.mp h
    simp [analyze_symptom, format_fallback_response, format_fallback_parts, h, h']
  · have h' : ¬ 100 < ctx'.length := fun hc => h (hiff.mpr hc)
    simp [analyze_symptom, format_fallback_response, format_fallback_parts, h, h']

/-- Witness for the amended C2: two different 101-character contexts
produce the same failure-path output. -/
theorem c2_degradation_amended_witness :
    analyze_symptom rEx ctxLong none = analyze_symptom rEx ctxBrace none :=
  (c2_degradation_amended rEx ctxLong).2 ctxBrace (by decide)

/-- Claim C1 (corrected) — counterexample: a schema-violating oracle
dictionary passes through unvalidated (urgency level `"중간"` is none of
the three tiers and the department list is empty), and the fallback
with no retrieved context renders only two immediate-action bullets,
short of the claimed three. -/
theorem c1_claim_counterexample :
    (analyze_symptom rEx "" (some badA)).urgency_level = "중간"
    ∧ ("중간" ≠ "응급실" ∧ "중간" ≠ "외래진료" ∧ "중간" ≠ "자가관찰")
    ∧ (analyze_symptom rEx "" (some badA)).departments.length = 0
    ∧ (fallback_action_bullets rEx "").length = 2 := by decide

/-- Claim C1 as amended: only the fallback path guarantees structure —
its urgency level is always one of the three tiers, it recommends
exactly one department, and its rendering carries two or three
immediate-action bullets (three only when context was retrieved) and
exactly two precaution bullets.  The generative path copies the oracle
fields without validation. -/
theorem c1_fallback_structure (r : Routing) (ctx : String) :
    ((analyze_symptom r ctx none).urgency_level = "응급실"
      ∨ (analyze_symptom r ctx none).urgency_level = "외래진료"
      ∨ (analyze_symptom r ctx none).urgency_level = "자가관찰")
    ∧ (analyze_symptom r ctx none).departments.length = 1
    ∧ format_fallback_parts r ctx
        = fallback_head r ++ fallback_action_bullets r ctx ++ fallback_tail
    ∧ 2 ≤ (fallback_action_bullets r ctx).length
    ∧ (fallback_action_bullets r ctx).length ≤ 3
    ∧ (∀ b ∈ fallback_action_bullets r ctx, bullet_line b = true)
    ∧ List.countP bullet_line fallback_tail = 2 := by
  refine ⟨map_urgency_mem r.urgency.level, rfl, fallback_parts_decomp r ctx,
    ?_, ?_, ?_, by decide⟩
  · by_cases h : 100 < ctx.length <;> simp [fallback_action_bullets, h]
  · by_cases h : 100 < ctx.length <;> simp [fallback_action_bullets, h]
  · intro b hb
    by_cases h : 100 < ctx.length
    · simp [fallback_action_bullets, h] at hb
      rcases hb with hb | hb | hb
      · rw [hb]; exact bullet_line_marker _
      · rw [hb]; decide
      · rw [hb]; decide
    · simp [fallback_action_bullets, h] at hb
      rcases hb with hb | hb
      · rw [hb]; exact bullet_line_marker _
      · rw [hb]; decide

/-- Witness for the amended C1: the canned action of the example hint
renders as a bullet line in its fallback action list. -/
theorem c1_fallback_structure_witness :
    bullet_line ("  • " ++ rEx.urgency.action) = true :=
  (c1_fallback_structure rEx "").2.2.2.2.2.1 ("  • " ++ rEx.urgency.action)
    (by decide)


/-- Claim C4 (corrected) — counterexample: a retrieved chunk longer than
the context gate whose text contains a literal template delimiter is
inserted into the payload section unescaped — the section the code
builds differs from the one required by the spec, in which the chunk
braces are neutralized before insertion. -/
theorem c4_claim_counterexample :
    100 < ctxBrace.length
    ∧ (pyTake ctxBrace 1500).data.contains '\x7b' = true
    ∧ rag_section_of ctxBrace ≠ rag_section_spec ctxBrace := by decide

/-- Claim C4 as amended: only the schema description is neutralized —
`escape_braces` doubles each delimiter so that the templating layer
recovers the original text exactly — while retrieved chunk text is
inserted verbatim (unescaped) into the instruction payload. -/
theorem c4_escaping_amended (fi : String) (r : Routing) (ctx : String) :
    template_unescape (escape_braces fi) = fi
    ∧ (100 < ctx.length →
        system_prompt_of r ctx fi
          = prompt_head r ++ (rag_pre ++ pyTake ctx 1500 ++ rag_post)
            ++ prompt_mid ++ escape_braces fi ++ "\n") := by
  constructor
  · show String.mk (template_unescape_chars (escape_braces fi).data) = fi
    rw [escape_braces_eq, unescape_expand]
  · intro h
    simp [system_prompt_of, rag_section_of, h]

/-- Witness for the amended C4 at a braced schema description and the
braced long context. -/
theorem c4_escaping_amended_witness :
    template_unescape (escape_braces "\x7b\x22type\x22: \x22object\x22\x7d")
      = "\x7b\x22type\x22: \x22object\x22\x7d"
    ∧ system_prompt_of rEx ctxBrace ""
        = prompt_head rEx ++ (rag_pre ++ pyTake ctxBrace 1500 ++ rag_post)
          ++ prompt_mid ++ escape_braces "" ++ "\n" :=
  ⟨(c4_escaping_amended "\x7b\x22type\x22: \x22object\x22\x7d" rEx ctxBrace).1,
   (c4_escaping_amended "" rEx ctxBrace).2 (by decide)⟩

/-- Claim C5 (corrected) — counterexample: an empty message is not
rejected — the handler runs the pipeline on it and wraps a pipeline
success in a success envelope — while a pipeline failure on a non-empty
message is surfaced at the boundary as a classified failure with code
`CHAT_ERROR`, so failure classes other than input errors are surfaced
there. -/
theorem c5_claim_counterexample :
    (chat "" (fun _ => Except.ok "안내문")).success = true
    ∧ (chat "열이 나요" (fun _ => Except.error "oracle down")).success = false
    ∧ ((chat "열이 나요" (fun _ => Except.error "oracle down")).error.map
        ErrorDetails.code) = some (some "CHAT_ERROR") := by
  exact ⟨rfl, rfl, rfl⟩

/-- Claim C5 as amended: the chat handler performs no input validation —
it invokes the pipeline on every message, wraps a pipeline success in a
success envelope, and surfaces every pipeline exception, of any class,
as the classified failure `CHAT_ERROR` with the exception text as
reason. -/
theorem c5_handler_amended (msg : String) (run : String → Except String String) :
    (∀ d, run msg = Except.ok d →
      chat msg run = { success := true, message := some "응답 생성 성공"
                       data := some [d], error := none })
    ∧ (∀ e, run msg = Except.error e →
        chat msg run
          = { success := false, message := some "AI 응답 생성 실패", data := none
              error := some { code := some "CHAT_ERROR", field := none
                              rejected_value := none
                              reason := some (pyOrStr (some e) "AI 응답 생성 실패") } }) := by
  constructor
  · intro d h
    simp [chat, h, create_success_response]
  · intro e h
    simp [chat, h, create_error_response, optTruthy]

/-- Witness for the amended C5: a failing pipeline on a non-empty
message yields the classified `CHAT_ERROR` envelope. -/
theorem c5_handler_amended_witness :
    chat "배가 아파요" (fun _ => Except.error "quota")
      = { success := false, message := some "AI 응답 생성 실패", data := none
          error := some { code := some "CHAT_ERROR", field := none
                          rejected_value := none, reason := some "quota" } } :=
  (c5_handler_amended "배가 아파요" (fun _ => Except.error "quota")).2 "quota" rfl

/-- Claim C8 (confirmed): the renderer is a pure function of the
analysis dictionary — determinism is inherent in the embedding — and
its output is the newline-join of the sections in the fixed order:
friendly message, urgency line, recommended departments, immediate
actions, precautions, then the fixed disclaimer trailer. -/
theorem c8_render_fixed_order (a : Analysis) :
    format_response a
      = pyJoin "\n" (sec_message a ++ sec_urgency a ++ sec_departments a
          ++ sec_actions a ++ sec_precautions a ++ [disclaimer_line]) := rfl

/-- Claim C10 (confirmed): on every exit path of `analyze_symptom` the
returned mapping — which by construction has exactly the keys
`response`, `urgency_level`, `departments` — carries a non-empty
response that ends in the fixed disclaimer line. -/
theorem c10_exit_shape (r : Routing) (ctx : String) (oracle : Option Analysis) :
    (analyze_symptom r ctx oracle).response ≠ ""
    ∧ ∃ t : List Char,
        (analyze_symptom r ctx oracle).response.data = t ++ disclaimer_line.data := by
  have key : ∃ t : List Char,
      (analyze_symptom r ctx oracle).response.data = t ++ disclaimer_line.data := by
    match oracle with
    | some a =>
      match hu : a.urgency_level with
      | some ul =>
        have hresp : (analyze_symptom r ctx (some a)).response = format_response a := by
          simp [analyze_symptom, hu]
        rw [hresp]
        obtain ⟨L, hL⟩ := format_response_parts_ends a
        rw [format_response, hL]
        exact pyJoin_ends "\n" disclaimer_line L
      | none =>
        have hresp : (analyze_symptom r ctx (some a)).response
            = format_fallback_response r ctx := by
          simp [analyze_symptom, hu]
        rw [hresp]
        obtain ⟨L, hL⟩ := fallback_parts_ends r ctx
        rw [format_fallback_response, hL]
        exact pyJoin_ends "\n" disclaimer_line L
    | none =>
      obtain ⟨L, hL⟩ := fallback_parts_ends r ctx
      show ∃ t : List Char,
        (format_fallback_response r ctx).data = t ++ disclaimer_line.data
      rw [format_fallback_response, hL]
      exact pyJoin_ends "\n" disclaimer_line L
  obtain ⟨t, ht⟩ := key
  exact ⟨ends_ne_empty _ t ht, t, ht⟩

end CareNow
